import Mathlib

/-!
Verification of the gitness gitspace subsystem specification against the
repository source.  Each definition below is a shallow embedding of a piece
of the source; the section of the source it comes from is named in its
doc comment.  Definitions explicitly marked `Modelled from the spec:` embed
collaborator contracts whose implementation is not part of the studied
sources (the orchestrator, gitspace service and dbtx packages); they follow
the specification text.
-/

set_option maxRecDepth 4000

namespace Gitness

/-! ### Gitspace status enumeration (web/src/cde-gitness/constants/index.ts) -/

/-- Embedding of the `GitspaceStatus` TypeScript enum
(web/src/cde-gitness/constants/index.ts, lines 31-39). -/
inductive GitspaceStatus
  | running
  | stopped
  | unknown
  | error
  | starting
  | stopping
  | uninitialized
  deriving DecidableEq

/-- String value carried by each `GitspaceStatus` enum member, exactly as in
the TypeScript source. -/
def GitspaceStatus.value : GitspaceStatus → String
  | .running => "running"
  | .stopped => "stopped"
  | .unknown => "unknown"
  | .error => "error"
  | .starting => "starting"
  | .stopping => "stopping"
  | .uninitialized => "uninitialized"

/-- All members of the `GitspaceStatus` enum, in source order. -/
def allGitspaceStatuses : List GitspaceStatus :=
  [.running, .stopped, .unknown, .error, .starting, .stopping, .uninitialized]

/-- The set of string values exposed by the `GitspaceStatus` enum. -/
def gitspaceStatusValues : List String :=
  allGitspaceStatuses.map GitspaceStatus.value

/-- The nine lifecycle states named by the specification (section 4.2),
in their lower-case string form. -/
def specNineStates : List String :=
  ["uninitialized", "provisioning", "starting", "running", "stopping",
   "stopped", "deleting", "deleted", "error"]

/-! ### Event pipeline wiring (cmd/gitness/wire_gen.go, lines 583-617) -/

/-- The four gitspace event categories of the event pipeline. -/
inductive EventCategory
  | action
  | delete
  | infraProvisioning
  | operations
  deriving DecidableEq

/-- Dependencies passed to the gitspace event consumer constructors in
`initSystem` (cmd/gitness/wire_gen.go).  `actionReaderFactory` is
`readerFactory4` (events/gitspace), `deleteReaderFactory` is
`readerFactory5` (events/gitspacedelete), `infraReaderFactory` is
`readerFactory6` (events/gitspaceinfra) and `operationsReaderFactory` is
`readerFactory7` (events/gitspaceoperations). -/
inductive Dep
  | gitspaceEventConfig
  | gitspaceDeleteEventConfig
  | actionReaderFactory
  | deleteReaderFactory
  | infraReaderFactory
  | operationsReaderFactory
  | gitspaceEventStore
  | gitspaceService
  | orchestrator
  | eventsReporter
  deriving DecidableEq

/-- A gitspace event consumer service as constructed in `initSystem`:
its event category, the reader factory it consumes from, and the full
list of dependencies passed to its constructor (the ambient context
argument aside). -/
structure ConsumerService where
  category : EventCategory
  readerFactory : Dep
  deps : List Dep
  deriving DecidableEq

/-- `gitspaceeventService` from wire_gen.go line 588:
`gitspaceevent.ProvideService(ctx, gitspaceeventConfig, readerFactory4, gitspaceEventStore)`. -/
def gitspaceeventService : ConsumerService :=
  { category := .action
    readerFactory := .actionReaderFactory
    deps := [.gitspaceEventConfig, .actionReaderFactory, .gitspaceEventStore] }

/-- `gitspacedeleteeventService` from wire_gen.go line 597:
`gitspacedeleteevent.ProvideService(ctx, gitspacedeleteeventConfig, readerFactory5, gitspaceService)`. -/
def gitspacedeleteeventService : ConsumerService :=
  { category := .delete
    readerFactory := .deleteReaderFactory
    deps := [.gitspaceDeleteEventConfig, .deleteReaderFactory, .gitspaceService] }

/-- `gitspaceinfraeventService` from wire_gen.go line 605:
`gitspaceinfraevent.ProvideService(ctx, gitspaceeventConfig, readerFactory6,
orchestratorOrchestrator, gitspaceService, eventsReporter)`. -/
def gitspaceinfraeventService : ConsumerService :=
  { category := .infraProvisioning
    readerFactory := .infraReaderFactory
    deps := [.gitspaceEventConfig, .infraReaderFactory, .orchestrator,
             .gitspaceService, .eventsReporter] }

/-- `gitspaceoperationseventService` from wire_gen.go line 613:
`gitspaceoperationsevent.ProvideService(ctx, gitspaceeventConfig, readerFactory7,
orchestratorOrchestrator, gitspaceService, eventsReporter)`. -/
def gitspaceoperationseventService : ConsumerService :=
  { category := .operations
    readerFactory := .operationsReaderFactory
    deps := [.gitspaceEventConfig, .operationsReaderFactory, .orchestrator,
             .gitspaceService, .eventsReporter] }

/-- The consumer services bundled by `services.ProvideGitspaceServices`
(wire_gen.go line 617), in construction order. -/
def gitspaceConsumerServices : List ConsumerService :=
  [gitspaceeventService, gitspacedeleteeventService,
   gitspaceinfraeventService, gitspaceoperationseventService]

/-! ### IDE factory wiring (cmd/gitness/wire_gen.go, lines 346-352) -/

/-- The three IDE adapter services constructed in `initSystem`
(wire_gen.go lines 346-351): `ide.ProvideVSCodeService`,
`ide.ProvideVSCodeWebService` and `ide.ProvideJetBrainsIDEsService`. -/
inductive IDEService
  | vsCode
  | vsCodeWeb
  | jetBrains
  deriving DecidableEq

/-- The three IDE variant families named by the specification (section 2):
a desktop IDE, a browser-based IDE and the JetBrains family. -/
inductive IDEVariantFamily
  | desktop
  | browser
  | jetBrainsFamily
  deriving DecidableEq

/-- Modelled from the spec: variant family of each wired IDE adapter
(VS Code is the desktop IDE, VS Code Web the browser-based IDE, and the
JetBrains service covers the JetBrains family). -/
def IDEService.family : IDEService → IDEVariantFamily
  | .vsCode => .desktop
  | .vsCodeWeb => .browser
  | .jetBrains => .jetBrainsFamily

/-- Embedding of `ide.ProvideIDEFactory` as it is used in wire_gen.go
line 352: the factory is the fixed collection of the adapters passed to it. -/
def ProvideIDEFactory (a b c : IDEService) : List IDEService := [a, b, c]

/-- The IDE factory constructed once during wiring
(wire_gen.go line 352): `ide.ProvideIDEFactory(vsCode, vsCodeWeb, v)`. -/
def ideFactory : List IDEService :=
  ProvideIDEFactory .vsCode .vsCodeWeb .jetBrains

/-- Embedding of the `IDEType` TypeScript enum, the IDE types selectable at
the public interface (web/src/cde-gitness/constants/index.ts, lines 17-20). -/
inductive IDEType
  | vs_code
  | vs_code_web
  deriving DecidableEq

/-- Modelled from the spec: the pure mapping from `ideType` to adapter
(section 4.5; the `ide` package internals are not among the studied
sources).  `vs_code` selects the VS Code adapter and `vs_code_web` the
VS Code Web adapter, following the adapter names of the wiring. -/
def IDEType.toService : IDEType → IDEService
  | .vs_code => .vsCode
  | .vs_code_web => .vsCodeWeb

/-- Resolves an `ideType` against a factory: the adapter is looked up in the
factory's fixed adapter collection. -/
def lookupIDE (factory : List IDEService) (t : IDEType) : Option IDEService :=
  factory.find? (fun a => a = t.toService)

/-! ### Gitspace lifecycle model (modelled from the spec)

The orchestrator and gitspace service packages are referenced by the wiring
but are not among the studied sources; the following definitions are
modelled from the specification (sections 4.1, 4.2, 4.4, 5 and 8). -/

/-- Modelled from the spec: the gitspace instance lifecycle states of the
orchestrator state machine (section 4.2; the orchestrator package is not
among the studied sources). -/
inductive LifecycleState
  | uninitialized
  | provisioning
  | starting
  | running
  | stopping
  | stopped
  | deleting
  | deleted
  | error
  deriving DecidableEq

/-- Result of a lifecycle request at the gitspace service interface. -/
inductive OpResult
  | ok
  | conflict
  | failed
  deriving DecidableEq

/-- Modelled from the spec: persisted state owned by the gitspace service
for one gitspace config (section 4.1 and section 5): the instance lifecycle
state, whether the identifier-scoped exclusive lock is held by an in-flight
operation, the number of active instance records, whether the workspace
container is running, and a count of persisted state writes (the
side-effect meter). -/
structure GitspaceSvc where
  instState : LifecycleState
  lockHeld : Bool
  activeInstances : Nat
  containerRunning : Bool
  persistedWrites : Nat
  deriving DecidableEq

/-- States from which a `start` is legal per the transition table of
section 4.2 (Uninitialized/Stopped, and Error for retry). -/
def startable : LifecycleState → Bool
  | .uninitialized => true
  | .stopped => true
  | .error => true
  | _ => false

/-- Modelled from the spec: `RequestStart` (section 4.1 and section 5).
The identifier-scoped lock is acquired before any state transition; if it
is already held by an in-flight operation the call observes `Conflict` and
changes nothing.  Otherwise the single active instance record is written to
the pending `starting` state. -/
def requestStart (s : GitspaceSvc) : GitspaceSvc × OpResult :=
  if s.lockHeld then (s, .conflict)
  else if startable s.instState then
    ({ s with
        instState := .starting, lockHeld := true, activeInstances := 1,
        persistedWrites := s.persistedWrites + 1 }, .ok)
  else (s, .failed)

/-- Modelled from the spec: completion of an in-flight start (section 4.2
stage 6): the instance is persisted as `running` with the container up, and
the identifier-scoped lock is released after the transition is persisted. -/
def completeStart (s : GitspaceSvc) : GitspaceSvc :=
  if s.lockHeld ∧ s.instState = .starting then
    { s with
        instState := .running, containerRunning := true, lockHeld := false,
        persistedWrites := s.persistedWrites + 1 }
  else s

/-- Modelled from the spec: `stop` handling (sections 4.1, 4.2 and 8).
A `stop` on an already `stopped` instance succeeds and performs no state
write and no container mutation; a `stop` on a `running` instance stops the
container and persists `stopped`. -/
def requestStop (s : GitspaceSvc) : GitspaceSvc × OpResult :=
  if s.lockHeld then (s, .conflict)
  else if s.instState = .stopped then (s, .ok)
  else if s.instState = .running then
    ({ s with
        instState := .stopped, containerRunning := false,
        persistedWrites := s.persistedWrites + 1 }, .ok)
  else (s, .failed)

/-- Container states of the embedded container orchestrator contract
(section 4.4). -/
inductive ContainerState
  | created
  | runningC
  | stoppedC
  deriving DecidableEq

/-- Modelled from the spec: the container orchestrator `Stop` (section 4.4):
safe to call on an already-stopped container — idempotent, returns
success. -/
def containerStop : ContainerState → ContainerState × OpResult
  | .runningC => (.stoppedC, .ok)
  | .stoppedC => (.stoppedC, .ok)
  | .created => (.created, .failed)

/-- A concrete stopped, unlocked gitspace used to evaluate the lifecycle
theorems. -/
def c3Start : GitspaceSvc :=
  { instState := .stopped, lockHeld := false, activeInstances := 0,
    containerRunning := false, persistedWrites := 0 }

/-- A concrete stopped gitspace with some history, used to evaluate the
stop-idempotence theorem. -/
def c4Stopped : GitspaceSvc :=
  { instState := .stopped, lockHeld := false, activeInstances := 1,
    containerRunning := false, persistedWrites := 3 }

/-- System state after wiring: the mutable gitspace service state together
with the IDE factory installed by `initSystem`. -/
structure SystemState where
  svc : GitspaceSvc
  factory : List IDEService

/-- The system as produced by the wiring in `initSystem`: a fresh gitspace
service state and the IDE factory built by `ide.ProvideIDEFactory`. -/
def sysInit : SystemState :=
  { svc := { instState := .uninitialized, lockHeld := false, activeInstances := 0,
             containerRunning := false, persistedWrites := 0 }
    factory := ideFactory }

/-- Runtime operations available after wiring (modelled from the spec,
section 4.1: the lifecycle actions exposed by the gitspace service plus the
orchestrator completion step).  No operation reconfigures the IDE factory. -/
inductive SysOp
  | opRequestStart
  | opCompleteStart
  | opRequestStop

/-- One runtime step: lifecycle operations act on the gitspace service
state only. -/
def sysStep (st : SystemState) : SysOp → SystemState
  | .opRequestStart => { st with svc := (requestStart st.svc).1 }
  | .opCompleteStart => { st with svc := completeStart st.svc }
  | .opRequestStop => { st with svc := (requestStop st.svc).1 }

/-- Runs a sequence of runtime operations from a system state. -/
def sysRun (st : SystemState) (ops : List SysOp) : SystemState :=
  ops.foldl sysStep st

/-! ### Space creation (app/api/controller/space/create.go) -/

/-- Value of one base-10 digit run, or `none` if the run is empty or holds a
non-digit (the digit part of Go's `strconv.ParseInt(s, 10, 64)`). -/
def digitsVal (cs : List Char) : Option Nat :=
  match cs with
  | [] => none
  | _ :: _ =>
    cs.foldl
      (fun acc c =>
        match acc with
        | none => none
        | some n => if c.isDigit then some (n * 10 + (c.toNat - 48)) else none)
      (some 0)

/-- Embedding of Go `strconv.ParseInt(s, 10, 64)` on the character list of
the input: an optional sign followed by at least one digit, with the value
required to fit in a signed 64-bit integer (`none` models a non-nil error,
including range errors). -/
def parseInt64L (cs : List Char) : Option Int :=
  match cs with
  | [] => none
  | c :: rest =>
    if c = '-' then
      match digitsVal rest with
      | none => none
      | some n => if n ≤ 9223372036854775808 then some (-(n : Int)) else none
    else if c = '+' then
      match digitsVal rest with
      | none => none
      | some n => if n ≤ 9223372036854775807 then some ((n : Int)) else none
    else
      match digitsVal cs with
      | none => none
      | some n => if n ≤ 9223372036854775807 then some ((n : Int)) else none

/-- Embedding of Go `strconv.ParseInt(s, 10, 64)`. -/
def parseInt64 (s : String) : Option Int := parseInt64L s.data

/-- Whether a `ParseInt` result is a successfully parsed negative value
(`err == nil && parentRefAsID < 0` in create.go line 214). -/
def optIsNeg : Option Int → Bool
  | some v => decide (v < 0)
  | none => false

/-- Whether a `ParseInt` result is a successfully parsed zero
(`err == nil && parentRefAsID == 0` in create.go line 219). -/
def optIsZero : Option Int → Bool
  | some v => decide (v = 0)
  | none => false

/-- Whether a `ParseInt` result is a successfully parsed non-positive value
(`parentRefAsID <= 0 && err == nil` in create.go line 162). -/
def optIsNonPos : Option Int → Bool
  | some v => decide (v ≤ 0)
  | none => false

/-- Embedding of `types.Space` with the fields written by
`createSpaceInnerInTX` (create.go lines 100-109). -/
structure Space where
  id : Int
  version : Int
  parentID : Int
  identifier : String
  description : String
  path : String
  createdBy : Int
  created : Int
  updated : Int
  deriving DecidableEq

/-- Embedding of `types.SpacePathSegment` as written by
`createSpaceInnerInTX` (create.go lines 115-123). -/
structure SpacePathSegment where
  identifier : String
  isPrimary : Bool
  spaceID : Int
  parentID : Int
  createdBy : Int
  created : Int
  updated : Int
  deriving DecidableEq

/-- Embedding of `types.Membership` as written by `createSpaceInnerInTX`
(create.go lines 131-142). -/
structure Membership where
  spaceID : Int
  principalID : Int
  role : String
  createdBy : Int
  created : Int
  updated : Int
  deriving DecidableEq

/-- The persisted tables touched by space creation: spaces, path segments,
memberships, and the public-access settings (path, isPublic). -/
structure StoreState where
  spaces : List Space
  pathSegments : List SpacePathSegment
  memberships : List Membership
  publicAccess : List (String × Bool)
  deriving DecidableEq

/-- Errors surfaced by the `Create` call path of the space controller.
The sanitize errors correspond to `errNestedSpacesNotSupported`,
`errPublicSpaceCreationDisabled`, `errParentIDNegative` (create.go lines
34-37 and 204-216) and the identifier/description check failures; the
remaining errors are failures of the collaborator calls. -/
inductive CreateErr
  | nestedSpacesNotSupported
  | publicSpaceCreationDisabled
  | parentIDNegative
  | identifierInvalid
  | descriptionInvalid
  | unauthorized
  | parentSpaceNotFound
  | primaryPathNotFound
  | pathInvalid
  | spaceCreateFailed
  | insertSegmentFailed
  | membershipCreateFailed
  | publicAccessSetFailed
  deriving DecidableEq

/-- Embedding of `CreateInput` (create.go lines 39-46). -/
structure CreateInput where
  parentRef : String
  uid : String
  identifier : String
  description : String
  isPublic : Bool
  deriving DecidableEq

/-- Environment of a `Create` call: the controller flags
(`nestedSpacesEnabled`, `publicResourceCreationEnabled`) and the behaviour
of the collaborator stores and checks that are outside the studied sources
(`spacePathStore.FindPrimaryBySpaceID`, `spaceStore.FindByRef`, the
authorizer, `check.PathDepth`, `identifierCheck`, `check.Description`),
plus the id, clock and system principal the stores assign. -/
structure CreateEnv where
  nestedSpacesEnabled : Bool
  publicResourceCreationEnabled : Bool
  spaceCreateFails : Bool
  insertSegmentFails : Bool
  membershipCreateFails : Bool
  publicAccessSetFails : Bool
  findPrimaryPath : Int → Option String
  findByRef : String → Option Space
  authOK : Bool
  pathDepthOK : String → Bool
  identifierOK : String → Bool → Bool
  descriptionOK : String → Bool
  nextSpaceID : Int
  now : Int
  systemPrincipalID : Int

/-- Embedding of Go `strings.TrimSpace`: leading and trailing whitespace
removed. -/
def trimSpace (s : String) : String :=
  String.mk (((s.data.dropWhile Char.isWhitespace).reverse.dropWhile
    Char.isWhitespace).reverse)

/-- Role constant `enum.MembershipRoleSpaceOwner` (the enum package is not
among the studied sources; the concrete string is irrelevant here). -/
def membershipRoleSpaceOwner : String := "space_owner"

/-- Embedding of `paths.Concatenate` as used in create.go line 90 (the
paths package is not among the studied sources; it joins parent path and
identifier). -/
def concatPath (parent child : String) : String := parent ++ "/" ++ child

/-- The deprecated-UID fallback at the top of `sanitizeCreateInput`
(create.go lines 200-202): an empty identifier is replaced by the UID. -/
def applyUIDFallback (input : CreateInput) : CreateInput :=
  if input.identifier = "" then { input with identifier := input.uid } else input

/-- Embedding of `sanitizeCreateInput` (create.go lines 198-233), in source
order: identifier fallback to the deprecated UID, the nested-spaces guard,
the public-creation guard, the negative-parent-id guard, the identifier
check with the root flag, then description trimming and check. -/
def sanitizeCreateInput (env : CreateEnv) (input0 : CreateInput) :
    Except CreateErr CreateInput :=
  let input := applyUIDFallback input0
  if input.parentRef ≠ "" ∧ env.nestedSpacesEnabled = false then
    .error .nestedSpacesNotSupported
  else if input.isPublic = true ∧ env.publicResourceCreationEnabled = false then
    .error .publicSpaceCreationDisabled
  else if optIsNeg (parseInt64 input.parentRef) then
    .error .parentIDNegative
  else
    let isRoot := optIsZero (parseInt64 input.parentRef) || (trimSpace input.parentRef == "")
    if env.identifierOK input.identifier isRoot = false then
      .error .identifierInvalid
    else
      let input := { input with description := trimSpace input.description }
      if env.descriptionOK input.description = false then
        .error .descriptionInvalid
      else .ok input

/-- The empty parent space returned for top-level creation
(`&types.Space{}` in create.go line 168). -/
def emptySpace : Space :=
  { id := 0, version := 0, parentID := 0, identifier := "", description := "",
    path := "", createdBy := 0, created := 0, updated := 0 }

/-- Embedding of `getSpaceCheckAuthSpaceCreation` (create.go lines 156-188):
for a root parent reference the empty space is returned (anonymous sessions
rejected); otherwise the parent space is looked up and the space-edit
permission checked. -/
def getSpaceCheckAuthSpaceCreation (env : CreateEnv) (sessionPresent : Bool)
    (parentRef : String) : Except CreateErr Space :=
  if optIsNonPos (parseInt64 parentRef) || (trimSpace parentRef == "") then
    if sessionPresent = false then .error .unauthorized
    else .ok emptySpace
  else
    match env.findByRef parentRef with
    | none => .error .parentSpaceNotFound
    | some sp =>
      if env.authOK = false then .error .unauthorized else .ok sp

/-- The store writes of `createSpaceInnerInTX` after the space path is
computed (create.go lines 99-153): create the space record, insert the
primary path segment, add the owner membership when the parent is the root
space, and set the public-access value.  Each write lands in the running
(dirty) store state; a failing write returns the dirty state reached so
far together with the error, exactly as the sequential Go code would
before the surrounding transaction rolls back. -/
def addSpaceRecords (env : CreateEnv) (principalID : Int) (parentID : Int)
    (input : CreateInput) (spacePath : String) (s : StoreState) :
    StoreState × Except CreateErr Space :=
  if env.spaceCreateFails then (s, .error .spaceCreateFailed)
  else
    let space : Space :=
      { id := env.nextSpaceID, version := 0, parentID := parentID,
        identifier := input.identifier, description := input.description,
        path := spacePath, createdBy := principalID, created := env.now,
        updated := env.now }
    let s1 := { s with spaces := s.spaces ++ [space] }
    if env.insertSegmentFails then (s1, .error .insertSegmentFailed)
    else
      let seg : SpacePathSegment :=
        { identifier := space.identifier, isPrimary := true, spaceID := space.id,
          parentID := parentID, createdBy := space.createdBy, created := env.now,
          updated := env.now }
      let s2 := { s1 with pathSegments := s1.pathSegments ++ [seg] }
      if parentID = 0 then
        if env.membershipCreateFails then (s2, .error .membershipCreateFailed)
        else
          let mem : Membership :=
            { spaceID := space.id, principalID := principalID,
              role := membershipRoleSpaceOwner, createdBy := env.systemPrincipalID,
              created := env.now, updated := env.now }
          let s3 := { s2 with memberships := s2.memberships ++ [mem] }
          if env.publicAccessSetFails then (s3, .error .publicAccessSetFailed)
          else ({ s3 with publicAccess := s3.publicAccess ++ [(space.path, input.isPublic)] },
                .ok space)
      else
        if env.publicAccessSetFails then (s2, .error .publicAccessSetFailed)
        else ({ s2 with publicAccess := s2.publicAccess ++ [(space.path, input.isPublic)] },
              .ok space)

/-- The space-path computation at the top of `createSpaceInnerInTX`
(create.go lines 83-97): the identifier itself for a root space; for a
child space the parent primary path is re-read in the transaction, the
concatenated path is formed and its depth checked. -/
def resolveSpacePath (env : CreateEnv) (parentID : Int) (input : CreateInput) :
    Except CreateErr String :=
  if parentID > 0 then
    match env.findPrimaryPath parentID with
    | none => .error .primaryPathNotFound
    | some parentPath =>
      let spacePath := concatPath parentPath input.identifier
      if env.pathDepthOK spacePath = false then .error .pathInvalid
      else .ok spacePath
  else .ok input.identifier

/-- Embedding of `createSpaceInnerInTX` (create.go lines 77-154): the space
path is computed (failing out on a missing parent path or excessive
depth), then the records are written. -/
def createSpaceInnerInTX (env : CreateEnv) (principalID : Int) (parentID : Int)
    (input : CreateInput) (s : StoreState) : StoreState × Except CreateErr Space :=
  match resolveSpacePath env parentID input with
  | .error e => (s, .error e)
  | .ok spacePath => addSpaceRecords env principalID parentID input spacePath s

/-- Modelled from the spec: `tx.WithTx` of the persistence layer (the dbtx
package is not among the studied sources; section 4.1: all state writes of
one call occur inside a single transaction).  The closure runs against the
store; if it ends in an error every write it made is rolled back and the
original store state is kept. -/
def withTx (s : StoreState)
    (f : StoreState → StoreState × Except CreateErr Space) :
    StoreState × Except CreateErr Space :=
  match f s with
  | (s2, .ok a) => (s2, .ok a)
  | (_, .error e) => (s, .error e)

/-- Embedding of `Controller.Create` (create.go lines 51-75): sanitize the
input, resolve and authorize the parent space, then run
`createSpaceInnerInTX` inside a transaction. -/
def Create (env : CreateEnv) (sessionPresent : Bool) (principalID : Int)
    (input : CreateInput) (s : StoreState) : StoreState × Except CreateErr Space :=
  match sanitizeCreateInput env input with
  | .error e => (s, .error e)
  | .ok input2 =>
    match getSpaceCheckAuthSpaceCreation env sessionPresent input2.parentRef with
    | .error e => (s, .error e)
    | .ok parentSpace =>
      withTx s (createSpaceInnerInTX env principalID parentSpace.id input2)

/-- A fully healthy `Create` environment used to evaluate the theorems on
concrete inputs. -/
def envOK : CreateEnv :=
  { nestedSpacesEnabled := true, publicResourceCreationEnabled := true,
    spaceCreateFails := false, insertSegmentFails := false,
    membershipCreateFails := false, publicAccessSetFails := false,
    findPrimaryPath := fun _ => some "root",
    findByRef := fun _ => none, authOK := true,
    pathDepthOK := fun _ => true, identifierOK := fun _ _ => true,
    descriptionOK := fun _ => true,
    nextSpaceID := 1, now := 1000, systemPrincipalID := 99 }

/-- `envOK` with the public-access write failing, to exercise rollback. -/
def envFailPA : CreateEnv := { envOK with publicAccessSetFails := true }

/-- `envOK` with nested spaces disabled. -/
def envNoNested : CreateEnv := { envOK with nestedSpacesEnabled := false }

/-- A concrete root-space creation input. -/
def inputRoot : CreateInput :=
  { parentRef := "", uid := "", identifier := "proj", description := "d",
    isPublic := true }

/-- A concrete input whose parent reference parses to -1. -/
def inputNeg : CreateInput :=
  { parentRef := "-1", uid := "", identifier := "abc", description := "",
    isPublic := false }

/-- A concrete input whose parent reference parses to -5. -/
def inputNeg5 : CreateInput :=
  { parentRef := "-5", uid := "", identifier := "abc", description := "",
    isPublic := false }

/-- `envOK` with public resource creation disabled. -/
def envPubOff : CreateEnv := { envOK with publicResourceCreationEnabled := false }

/-- A concrete public-space input whose parent reference parses to -1. -/
def inputNegPub : CreateInput :=
  { parentRef := "-1", uid := "", identifier := "abc", description := "",
    isPublic := true }

/-- The empty store. -/
def emptyStore : StoreState :=
  { spaces := [], pathSegments := [], memberships := [], publicAccess := [] }

/-- The space record produced by `Create envOK true 7 inputRoot emptyStore`. -/
def spaceRootResult : Space :=
  { id := 1, version := 0, parentID := 0, identifier := "proj",
    description := "d", path := "proj", createdBy := 7, created := 1000,
    updated := 1000 }

/-! ### Registry metadata utilities (registry/app/api/controller/metadata/utils.go) -/

/-- Constant `RepositoryResource` (utils.go line 46). -/
def RepositoryResource : String := "repository"

/-- Constant `ArtifactResource` (utils.go line 47). -/
def ArtifactResource : String := "artifact"

/-- Constant `ArtifactVersionResource` (utils.go line 48). -/
def ArtifactVersionResource : String := "artifactversion"

/-- `registrySort` (utils.go lines 37-43). -/
def registrySort : List String :=
  ["identifier", "lastModified", "registrySize", "artifactsCount", "downloadsCount"]

/-- `RegistrySortMap` (utils.go lines 54-61), as an association list. -/
def registrySortMap : List (String × String) :=
  [("identifier", "name"), ("lastModified", "updated_at"), ("registrySize", "size"),
   ("artifactsCount", "artifact_count"), ("downloadsCount", "download_count"),
   ("createdAt", "created_at")]

/-- `artifactSort` (utils.go lines 63-68). -/
def artifactSort : List String :=
  ["repoKey", "name", "lastModified", "downloadsCount"]

/-- `artifactSortMap` (utils.go lines 70-76). -/
def artifactSortMap : List (String × String) :=
  [("repoKey", "name"), ("lastModified", "updated_at"), ("name", "image_name"),
   ("downloadsCount", "image_name"), ("createdAt", "created_at")]

/-- `artifactVersionSort` (utils.go lines 78-84). -/
def artifactVersionSort : List String :=
  ["name", "size", "pullCommand", "downloadsCount", "lastModified"]

/-- `artifactVersionSortMap` (utils.go lines 86-93). -/
def artifactVersionSortMap : List (String × String) :=
  [("name", "name"), ("size", "name"), ("pullCommand", "name"),
   ("downloadsCount", "name"), ("lastModified", "updated_at"),
   ("createdAt", "created_at")]

/-- Read of a Go map: a missing key yields the zero value "". -/
def mapGet (m : List (String × String)) (k : String) : String :=
  (m.lookup k).getD ""

/-- Embedding of `sortKey` (utils.go lines 245-252): the target if it occurs
in the slice, otherwise "createdAt". -/
def sortKey (slice : List String) (target : String) : String :=
  if target ∈ slice then target else "createdAt"

/-- Embedding of `GetSortByField` (utils.go lines 254-267). -/
def GetSortByField (sortByField resource : String) : String :=
  if resource = RepositoryResource then
    mapGet registrySortMap (sortKey registrySort sortByField)
  else if resource = ArtifactResource then
    mapGet artifactSortMap (sortKey artifactSort sortByField)
  else if resource = ArtifactVersionResource then
    mapGet artifactVersionSortMap (sortKey artifactVersionSort sortByField)
  else "created_at"

/-- The allowed sort list of each resource (empty for unknown resources). -/
def allowedSortFields (resource : String) : List String :=
  if resource = RepositoryResource then registrySort
  else if resource = ArtifactResource then artifactSort
  else if resource = ArtifactVersionResource then artifactVersionSort
  else []

/-- Constant `RegistryIdentifierErrorMsg` (utils.go lines 49-50). -/
def RegistryIdentifierErrorMsg : String :=
  "registry name should be 1~255 characters long with lower case characters, numbers " ++
  "and ._- and must be start with numbers or characters"

/-- Whether a character is in the class `[a-z0-9]`. -/
def isLowerAlnum (c : Char) : Bool :=
  (('a' ≤ c) && (c ≤ 'z')) || (('0' ≤ c) && (c ≤ '9'))

/-- Whether a character is in the separator class `[._-]`. -/
def isSepChar (c : Char) : Bool :=
  c == '.' || c == '_' || c == '-'

/-- Scanner states for the pattern `^[a-z0-9]+(?:[._-][a-z0-9]+)*$`
(`RegexIdentifierPattern`, utils.go line 51): before the first character,
inside an alphanumeric run, and right after a separator. -/
inductive IdentScanState
  | needFirst
  | inRun
  | afterSep
  deriving DecidableEq

/-- One step of the identifier pattern scanner. -/
def identScanStep : IdentScanState → Char → Option IdentScanState
  | .needFirst, c => if isLowerAlnum c then some .inRun else none
  | .inRun, c =>
    if isLowerAlnum c then some .inRun
    else if isSepChar c then some .afterSep
    else none
  | .afterSep, c => if isLowerAlnum c then some .inRun else none

/-- Whether a scanner state is accepting (the pattern may only end inside an
alphanumeric run). -/
def identAccept : IdentScanState → Bool
  | .inRun => true
  | _ => false

/-- Runs the identifier pattern scanner over the remaining characters. -/
def matchIdentFrom : IdentScanState → List Char → Bool
  | st, [] => identAccept st
  | st, c :: rest =>
    match identScanStep st c with
    | none => false
    | some st2 => matchIdentFrom st2 rest

/-- Whole-string match of `RegexIdentifierPattern`
(`^[a-z0-9]+(?:[._-][a-z0-9]+)*$`). -/
def regexIdentifierMatch (s : String) : Bool :=
  matchIdentFrom .needFirst s.data

/-- Embedding of `ValidateIdentifier` (utils.go lines 146-156): empty
identifiers and identifiers not matching `RegexIdentifierPattern` are
rejected with `RegistryIdentifierErrorMsg`; the pattern always compiles, so
the `MatchString` error branch is unreachable. -/
def ValidateIdentifier (identifier : String) : Except String Unit :=
  if identifier.length = 0 then .error RegistryIdentifierErrorMsg
  else if regexIdentifierMatch identifier then .ok ()
  else .error RegistryIdentifierErrorMsg

/-! ### Theorems -/

/-- Claim C1, counterexample: the claimed nine-state set is not the set of
states exposed by the public `GitspaceStatus` enumeration — `provisioning`
(likewise `deleting` and `deleted`) is claimed but not exposed, while the
exposed `unknown` is not among the claimed nine. -/
theorem C1_counterexample :
    "provisioning" ∈ specNineStates ∧ "provisioning" ∉ gitspaceStatusValues ∧
    "deleting" ∉ gitspaceStatusValues ∧ "deleted" ∉ gitspaceStatusValues ∧
    "unknown" ∈ gitspaceStatusValues ∧ "unknown" ∉ specNineStates := by
  decide

/-- Claim C1, amended: the set of gitspace instance states exposed at the
public interface (the `GitspaceStatus` enumeration) is exactly
running, stopped, unknown, error, starting, stopping, uninitialized —
every exposed state is one of these seven, and each of the seven is a
possible state. -/
theorem C1_status_set_amended :
    (∀ v ∈ gitspaceStatusValues, ∃ st : GitspaceStatus, st.value = v) ∧
    (∀ st : GitspaceStatus, st.value ∈ gitspaceStatusValues) ∧
    gitspaceStatusValues =
      ["running", "stopped", "unknown", "error", "starting", "stopping",
       "uninitialized"] := by
  refine ⟨?_, ?_, rfl⟩
  · intro v hv
    have hv2 : v ∈ ["running", "stopped", "unknown", "error", "starting",
        "stopping", "uninitialized"] := hv
    fin_cases hv2
    · exact ⟨.running, rfl⟩
    · exact ⟨.stopped, rfl⟩
    · exact ⟨.unknown, rfl⟩
    · exact ⟨.error, rfl⟩
    · exact ⟨.starting, rfl⟩
    · exact ⟨.stopping, rfl⟩
    · exact ⟨.uninitialized, rfl⟩
  · intro st; cases st <;> decide

/-- Claim C1, witness: the amended theorem applied to the exposed state
value "unknown". -/
theorem C1_witness : ∃ st : GitspaceStatus, st.value = "unknown" :=
  C1_status_set_amended.1 "unknown" (by decide)

/-- Claim C2, counterexample: the Orchestrator is not among the
dependencies of every one of the four consumers — the action-event
consumer (`gitspaceeventService`) and the delete consumer
(`gitspacedeleteeventService`) are constructed without it. -/
theorem C2_counterexample :
    gitspaceeventService ∈ gitspaceConsumerServices ∧
    Dep.orchestrator ∉ gitspaceeventService.deps ∧
    gitspacedeleteeventService ∈ gitspaceConsumerServices ∧
    Dep.orchestrator ∉ gitspacedeleteeventService.deps := by
  decide

/-- Claim C2, amended: the event pipeline consists of exactly four consumer
services, one per event category (action, delete, infra-provisioning,
operations), each constructed with its own independent reader factory;
the infra-provisioning and operations consumers invoke the Orchestrator
directly, the delete consumer drives it through the Gitspace Service, and
the action-event consumer only persists events to the gitspace event store
and is constructed without the Orchestrator. -/
theorem C2_consumers_amended :
    (∀ svc ∈ gitspaceConsumerServices, svc.readerFactory ∈ svc.deps) ∧
    gitspaceConsumerServices.length = 4 ∧
    gitspaceConsumerServices.map ConsumerService.category =
      [.action, .delete, .infraProvisioning, .operations] ∧
    (gitspaceConsumerServices.map ConsumerService.readerFactory).Nodup ∧
    Dep.orchestrator ∈ gitspaceinfraeventService.deps ∧
    Dep.orchestrator ∈ gitspaceoperationseventService.deps ∧
    Dep.gitspaceService ∈ gitspacedeleteeventService.deps ∧
    Dep.gitspaceEventStore ∈ gitspaceeventService.deps ∧
    Dep.orchestrator ∉ gitspaceeventService.deps ∧
    Dep.orchestrator ∉ gitspacedeleteeventService.deps := by
  decide

/-- Claim C2, witness: the amended theorem applied to the action-event
consumer — its own reader factory is among its dependencies. -/
theorem C2_witness :
    gitspaceeventService.readerFactory ∈ gitspaceeventService.deps :=
  C2_consumers_amended.1 gitspaceeventService (by decide)

/-- Claim C3: for a valid (unlocked, startable) gitspace, a second `start`
arriving before the first completes observes `Conflict` and changes
nothing, the completed lifecycle ends with exactly one active instance in
the `running` state, and the first call's outcome is unaffected by the
second call. -/
theorem C3_start_conflict (s0 : GitspaceSvc) (h1 : s0.lockHeld = false)
    (h2 : startable s0.instState = true) :
    (requestStart s0).2 = .ok ∧
    (requestStart (requestStart s0).1).2 = .conflict ∧
    (requestStart (requestStart s0).1).1 = (requestStart s0).1 ∧
    (completeStart (requestStart s0).1).instState = .running ∧
    (completeStart (requestStart s0).1).activeInstances = 1 ∧
    completeStart (requestStart (requestStart s0).1).1 =
      completeStart (requestStart s0).1 := by
  simp [requestStart, completeStart, h1, h2]

/-- Claim C3, witness: the theorem applied to a concrete stopped, unlocked
gitspace. -/
theorem C3_witness :
    (requestStart (requestStart c3Start).1).2 = .conflict ∧
    (completeStart (requestStart c3Start).1).instState = .running :=
  ⟨(C3_start_conflict c3Start rfl rfl).2.1,
   (C3_start_conflict c3Start rfl rfl).2.2.2.1⟩

/-- Claim C4: `stop` is idempotent — on a gitspace whose instance is
`stopped` (with no operation in flight), `stop` succeeds, performs no state
write and no container mutation, and the state remains `stopped`; likewise
the container orchestrator's `Stop` on an already-stopped container returns
success. -/
theorem C4_stop_idempotent (s : GitspaceSvc) (h1 : s.lockHeld = false)
    (h2 : s.instState = .stopped) :
    requestStop s = (s, .ok) ∧
    (requestStop (requestStop s).1).2 = .ok ∧
    (requestStop s).1.persistedWrites = s.persistedWrites ∧
    (requestStop s).1.instState = .stopped ∧
    containerStop .stoppedC = (.stoppedC, .ok) := by
  simp [requestStop, containerStop, h1, h2]

/-- Claim C4, witness: the theorem applied to a concrete stopped
gitspace. -/
theorem C4_witness :
    requestStop c4Stopped = (c4Stopped, .ok) ∧
    containerStop .stoppedC = (.stoppedC, .ok) :=
  ⟨(C4_stop_idempotent c4Stopped rfl rfl).1,
   (C4_stop_idempotent c4Stopped rfl rfl).2.2.2.2⟩

/-- Claim C5: the IDE factory is wired with exactly three adapters, whose
variant families are exactly the desktop IDE, the browser-based IDE and the
JetBrains family, and every IDE type selectable at the public interface
resolves to one of the wired adapters (hence to one of the three
families). -/
theorem C5_ide_variants :
    ideFactory.length = 3 ∧
    ideFactory.map IDEService.family = [.desktop, .browser, .jetBrainsFamily] ∧
    (∀ t : IDEType, t.toService ∈ ideFactory) ∧
    (∀ t : IDEType, t.toService.family ∈ ideFactory.map IDEService.family) := by
  refine ⟨rfl, rfl, ?_, ?_⟩ <;> intro t <;> cases t <;> decide

/-- Runtime steps never modify the wired IDE factory. -/
theorem sysStep_factory (st : SystemState) (op : SysOp) :
    (sysStep st op).factory = st.factory := by
  cases op <;> rfl

/-- Runs of runtime operations never modify the wired IDE factory. -/
theorem sysRun_factory (st : SystemState) (ops : List SysOp) :
    (sysRun st ops).factory = st.factory := by
  induction ops generalizing st with
  | nil => rfl
  | cons op rest ih => exact (ih (sysStep st op)).trans (sysStep_factory st op)

/-- Claim C6: the IDE factory is constructed exactly once during wiring
with the fixed adapter set, no runtime operation thereafter adds, removes
or replaces an adapter, and for every `ideType` two lookups at any two
times return the same adapter. -/
theorem C6_ide_factory_fixed :
    sysInit.factory = ProvideIDEFactory .vsCode .vsCodeWeb .jetBrains ∧
    (∀ ops : List SysOp, (sysRun sysInit ops).factory = ideFactory) ∧
    (∀ (ops1 ops2 : List SysOp) (t : IDEType),
      lookupIDE (sysRun sysInit ops1).factory t =
        lookupIDE (sysRun sysInit ops2).factory t) := by
  refine ⟨rfl, ?_, ?_⟩
  · intro ops; exact sysRun_factory sysInit ops
  · intro ops1 ops2 t
    rw [sysRun_factory, sysRun_factory]

/-- `GetSortByField` on the repository resource. -/
theorem GetSortByField_repo (f : String) :
    GetSortByField f RepositoryResource =
      mapGet registrySortMap (sortKey registrySort f) := by
  unfold GetSortByField
  rw [if_pos rfl]

/-- `GetSortByField` on the artifact resource. -/
theorem GetSortByField_artifact (f : String) :
    GetSortByField f ArtifactResource =
      mapGet artifactSortMap (sortKey artifactSort f) := by
  unfold GetSortByField
  rw [if_neg (by decide), if_pos rfl]

/-- `GetSortByField` on the artifact-version resource. -/
theorem GetSortByField_version (f : String) :
    GetSortByField f ArtifactVersionResource =
      mapGet artifactVersionSortMap (sortKey artifactVersionSort f) := by
  unfold GetSortByField
  rw [if_neg (by decide), if_neg (by decide), if_pos rfl]

/-- `GetSortByField` on an unknown resource. -/
theorem GetSortByField_other (f r : String) (h1 : r ≠ RepositoryResource)
    (h2 : r ≠ ArtifactResource) (h3 : r ≠ ArtifactVersionResource) :
    GetSortByField f r = "created_at" := by
  unfold GetSortByField
  rw [if_neg h1, if_neg h2, if_neg h3]

/-- The allowed sort list of the repository resource. -/
theorem allowedSortFields_repo :
    allowedSortFields RepositoryResource = registrySort := by
  unfold allowedSortFields
  rw [if_pos rfl]

/-- The allowed sort list of the artifact resource. -/
theorem allowedSortFields_artifact :
    allowedSortFields ArtifactResource = artifactSort := by
  unfold allowedSortFields
  rw [if_neg (by decide), if_pos rfl]

/-- The allowed sort list of the artifact-version resource. -/
theorem allowedSortFields_version :
    allowedSortFields ArtifactVersionResource = artifactVersionSort := by
  unfold allowedSortFields
  rw [if_neg (by decide), if_neg (by decide), if_pos rfl]

/-- Totality and fallback of the repository sort map. -/
theorem registrySortMap_total (f : String) :
    mapGet registrySortMap (sortKey registrySort f) ≠ "" ∧
    (f ∉ registrySort →
      mapGet registrySortMap (sortKey registrySort f) = "created_at") := by
  by_cases h : f ∈ registrySort
  · refine ⟨?_, fun hn => absurd h hn⟩
    have h2 : f ∈ ["identifier", "lastModified", "registrySize",
        "artifactsCount", "downloadsCount"] := h
    fin_cases h2 <;> decide
  · unfold sortKey
    rw [if_neg h]
    exact ⟨by decide, fun _ => by decide⟩

/-- Totality and fallback of the artifact sort map. -/
theorem artifactSortMap_total (f : String) :
    mapGet artifactSortMap (sortKey artifactSort f) ≠ "" ∧
    (f ∉ artifactSort →
      mapGet artifactSortMap (sortKey artifactSort f) = "created_at") := by
  by_cases h : f ∈ artifactSort
  · refine ⟨?_, fun hn => absurd h hn⟩
    have h2 : f ∈ ["repoKey", "name", "lastModified", "downloadsCount"] := h
    fin_cases h2 <;> decide
  · unfold sortKey
    rw [if_neg h]
    exact ⟨by decide, fun _ => by decide⟩

/-- Totality and fallback of the artifact-version sort map. -/
theorem artifactVersionSortMap_total (f : String) :
    mapGet artifactVersionSortMap (sortKey artifactVersionSort f) ≠ "" ∧
    (f ∉ artifactVersionSort →
      mapGet artifactVersionSortMap (sortKey artifactVersionSort f) =
        "created_at") := by
  by_cases h : f ∈ artifactVersionSort
  · refine ⟨?_, fun hn => absurd h hn⟩
    have h2 : f ∈ ["name", "size", "pullCommand", "downloadsCount",
        "lastModified"] := h
    fin_cases h2 <;> decide
  · unfold sortKey
    rw [if_neg h]
    exact ⟨by decide, fun _ => by decide⟩

/-- Claim C8: `GetSortByField` is total with a `created_at` fallback — for
every sort field and resource it returns a non-empty column name, and
whenever the field is not in the resource's allowed sort list (in
particular for every unknown resource, whose allowed list is empty) the
returned column is `created_at`. -/
theorem C8_sort_fallback (sortByField resource : String) :
    GetSortByField sortByField resource ≠ "" ∧
    (sortByField ∉ allowedSortFields resource →
      GetSortByField sortByField resource = "created_at") := by
  by_cases h1 : resource = RepositoryResource
  · subst h1
    rw [GetSortByField_repo, allowedSortFields_repo]
    exact registrySortMap_total sortByField
  by_cases h2 : resource = ArtifactResource
  · subst h2
    rw [GetSortByField_artifact, allowedSortFields_artifact]
    exact artifactSortMap_total sortByField
  by_cases h3 : resource = ArtifactVersionResource
  · subst h3
    rw [GetSortByField_version, allowedSortFields_version]
    exact artifactVersionSortMap_total sortByField
  · have h := GetSortByField_other sortByField resource h1 h2 h3
    rw [h]
    exact ⟨by decide, fun _ => rfl⟩

/-- Claim C8, witness: a sort field absent from the repository's allowed
list falls back to `created_at`, which is non-empty. -/
theorem C8_witness :
    GetSortByField "zzz" "repository" ≠ "" ∧
    GetSortByField "zzz" "repository" = "created_at" :=
  ⟨(C8_sort_fallback "zzz" "repository").1,
   (C8_sort_fallback "zzz" "repository").2 (by decide)⟩

/-- The identifier scanner accepts any run of letters `a` from the
in-run state. -/
theorem matchIdentFrom_repA (k : Nat) :
    matchIdentFrom .inRun (List.replicate k 'a') = true := by
  induction k with
  | zero => rfl
  | succ n ih =>
    rw [List.replicate_succ]
    show matchIdentFrom .inRun (List.replicate n 'a') = true
    exact ih

/-- `ValidateIdentifier` accepts the all-`a` identifier of any positive
length. -/
theorem validateIdentifier_replicate (n : Nat) :
    (String.mk (List.replicate (n + 1) 'a')).length = n + 1 ∧
    ValidateIdentifier (String.mk (List.replicate (n + 1) 'a')) = .ok () := by
  have hlen : (String.mk (List.replicate (n + 1) 'a')).length = n + 1 := by
    show (List.replicate (n + 1) 'a').length = n + 1
    exact List.length_replicate (n + 1) 'a'
  refine ⟨hlen, ?_⟩
  have hmatch : regexIdentifierMatch (String.mk (List.replicate (n + 1) 'a')) = true := by
    show matchIdentFrom .needFirst (List.replicate (n + 1) 'a') = true
    rw [List.replicate_succ]
    show matchIdentFrom .inRun (List.replicate n 'a') = true
    exact matchIdentFrom_repA n
  unfold ValidateIdentifier
  rw [if_neg (by rw [hlen]; exact Nat.succ_ne_zero n), if_pos hmatch]

/-- Claim C9: `ValidateIdentifier` accepts exactly the strings matching
`RegexIdentifierPattern` (which are necessarily non-empty), there is no
upper length bound — identifiers of every length are accepted, including a
concrete one longer than 255 characters — even though the error message
constant states identifiers should be 1~255 characters long. -/
theorem C9_validate_identifier :
    (∀ s : String, ValidateIdentifier s = .ok () ↔ regexIdentifierMatch s = true) ∧
    (∀ n : Nat, ∃ s : String, s.length > n ∧ ValidateIdentifier s = .ok ()) ∧
    (∃ s : String, s.length > 255 ∧ ValidateIdentifier s = .ok ()) ∧
    RegistryIdentifierErrorMsg =
      "registry name should be 1~255 characters long with lower case " ++
      "characters, numbers and ._- and must be start with numbers or characters" := by
  refine ⟨?_, ?_, ?_, rfl⟩
  · intro s
    unfold ValidateIdentifier
    by_cases h0 : s.length = 0
    · have hdata : s.data = [] := List.length_eq_zero.mp h0
      rw [if_pos h0]
      simp [regexIdentifierMatch, hdata, matchIdentFrom, identAccept]
    · rw [if_neg h0]
      by_cases hm : regexIdentifierMatch s
      · rw [if_pos hm]
        simp [hm]
      · rw [if_neg hm]
        simp [hm]
  · intro n
    refine ⟨String.mk (List.replicate (n + 1) 'a'), ?_, (validateIdentifier_replicate n).2⟩
    rw [(validateIdentifier_replicate n).1]
    exact Nat.lt_succ_self n
  · refine ⟨String.mk (List.replicate 256 'a'), ?_, (validateIdentifier_replicate 255).2⟩
    rw [(validateIdentifier_replicate 255).1]
    decide

/-- The UID fallback never changes the parent reference. -/
theorem applyUIDFallback_parentRef (input : CreateInput) :
    (applyUIDFallback input).parentRef = input.parentRef := by
  unfold applyUIDFallback
  split <;> rfl

/-- The UID fallback never changes the public flag. -/
theorem applyUIDFallback_isPublic (input : CreateInput) :
    (applyUIDFallback input).isPublic = input.isPublic := by
  unfold applyUIDFallback
  split <;> rfl

/-- A successfully parsed integer comes from a non-empty string. -/
theorem parseInt64_ne_empty {s : String} {v : Int}
    (h : parseInt64 s = some v) : s ≠ "" := by
  intro he
  rw [he] at h
  have h2 : (none : Option Int) = some v := h
  exact Option.noConfusion h2

/-- The transaction wrapper keeps the original store when the closure ends
in an error. -/
theorem withTx_error (s : StoreState)
    (f : StoreState → StoreState × Except CreateErr Space) (e : CreateErr)
    (h : (withTx s f).2 = .error e) : (withTx s f).1 = s := by
  unfold withTx at h ⊢
  rcases hfs : f s with ⟨s2, r⟩
  rw [hfs] at h
  cases r with
  | ok a => simp at h
  | error e2 => rfl

/-- The transaction wrapper commits the closure's writes on success. -/
theorem withTx_ok (s : StoreState)
    (f : StoreState → StoreState × Except CreateErr Space) (sp : Space)
    (h : (withTx s f).2 = .ok sp) :
    (f s).2 = .ok sp ∧ (f s).1 = (withTx s f).1 := by
  unfold withTx at h ⊢
  rcases hfs : f s with ⟨s2, r⟩
  rw [hfs] at h
  cases r with
  | ok a => exact ⟨h, rfl⟩
  | error e2 => simp at h

/-- When the record-writing phase succeeds, the resulting store contains
the created space, its primary path segment, the owner membership when the
parent is the root, and the public-access entry for the space path. -/
theorem addSpaceRecords_ok (env : CreateEnv) (principalID parentID : Int)
    (input : CreateInput) (spacePath : String) (s : StoreState) (sp : Space)
    (h : (addSpaceRecords env principalID parentID input spacePath s).2 = .ok sp) :
    sp ∈ (addSpaceRecords env principalID parentID input spacePath s).1.spaces ∧
    (∃ seg ∈ (addSpaceRecords env principalID parentID input spacePath s).1.pathSegments,
      seg.spaceID = sp.id ∧ seg.isPrimary = true) ∧
    (parentID = 0 →
      ∃ mem ∈ (addSpaceRecords env principalID parentID input spacePath s).1.memberships,
        mem.spaceID = sp.id ∧ mem.principalID = principalID) ∧
    (∃ pa ∈ (addSpaceRecords env principalID parentID input spacePath s).1.publicAccess,
      pa.1 = sp.path) ∧
    sp.parentID = parentID := by
  simp only [addSpaceRecords] at h ⊢
  split_ifs at h ⊢ with h1 h2 h3 h4 h5 h6
  · -- parent is root, all writes succeed
    have hsp := Except.ok.inj h
    subst hsp
    refine ⟨by simp,
      ⟨{ identifier := input.identifier
         isPrimary := true
         spaceID := env.nextSpaceID
         parentID := parentID
         createdBy := principalID
         created := env.now
         updated := env.now },
        by simp, rfl, rfl⟩,
      fun _ =>
        ⟨{ spaceID := env.nextSpaceID
           principalID := principalID
           role := membershipRoleSpaceOwner
           createdBy := env.systemPrincipalID
           created := env.now
           updated := env.now },
          by simp, rfl, rfl⟩,
      ⟨(spacePath, input.isPublic), by simp, rfl⟩, rfl⟩
  · -- parent is a child space, all writes succeed
    have hsp := Except.ok.inj h
    subst hsp
    refine ⟨by simp,
      ⟨{ identifier := input.identifier
         isPrimary := true
         spaceID := env.nextSpaceID
         parentID := parentID
         createdBy := principalID
         created := env.now
         updated := env.now },
        by simp, rfl, rfl⟩,
      fun h0 => absurd h0 h3,
      ⟨(spacePath, input.isPublic), by simp, rfl⟩, rfl⟩

/-- When `createSpaceInnerInTX` succeeds, the resulting store contains all
records written for the new space. -/
theorem createSpaceInnerInTX_ok (env : CreateEnv) (principalID parentID : Int)
    (input : CreateInput) (s : StoreState) (sp : Space)
    (h : (createSpaceInnerInTX env principalID parentID input s).2 = .ok sp) :
    sp ∈ (createSpaceInnerInTX env principalID parentID input s).1.spaces ∧
    (∃ seg ∈ (createSpaceInnerInTX env principalID parentID input s).1.pathSegments,
      seg.spaceID = sp.id ∧ seg.isPrimary = true) ∧
    (parentID = 0 →
      ∃ mem ∈ (createSpaceInnerInTX env principalID parentID input s).1.memberships,
        mem.spaceID = sp.id ∧ mem.principalID = principalID) ∧
    (∃ pa ∈ (createSpaceInnerInTX env principalID parentID input s).1.publicAccess,
      pa.1 = sp.path) ∧
    sp.parentID = parentID := by
  unfold createSpaceInnerInTX at h ⊢
  rcases hrp : resolveSpacePath env parentID input with e | spacePath
  · rw [hrp] at h
    exact Except.noConfusion h
  · rw [hrp] at h
    exact addSpaceRecords_ok env principalID parentID input spacePath s sp h

/-- `Create` with a failing sanitization returns the error and the
untouched store. -/
theorem Create_sanitize_error (env : CreateEnv) (sessionPresent : Bool)
    (principalID : Int) (input : CreateInput) (s : StoreState) (e : CreateErr)
    (h : sanitizeCreateInput env input = .error e) :
    Create env sessionPresent principalID input s = (s, .error e) := by
  unfold Create
  simp only [h]

/-- `Create` with a failing parent resolution or authorization returns the
error and the untouched store. -/
theorem Create_auth_error (env : CreateEnv) (sessionPresent : Bool)
    (principalID : Int) (input : CreateInput) (s : StoreState)
    (input2 : CreateInput) (e : CreateErr)
    (h1 : sanitizeCreateInput env input = .ok input2)
    (h2 : getSpaceCheckAuthSpaceCreation env sessionPresent input2.parentRef =
      .error e) :
    Create env sessionPresent principalID input s = (s, .error e) := by
  unfold Create
  simp only [h1, h2]

/-- `Create` past sanitization and authorization is the transactional run
of `createSpaceInnerInTX`. -/
theorem Create_tx (env : CreateEnv) (sessionPresent : Bool) (principalID : Int)
    (input : CreateInput) (s : StoreState) (input2 : CreateInput) (ps : Space)
    (h1 : sanitizeCreateInput env input = .ok input2)
    (h2 : getSpaceCheckAuthSpaceCreation env sessionPresent input2.parentRef =
      .ok ps) :
    Create env sessionPresent principalID input s =
      withTx s (createSpaceInnerInTX env principalID ps.id input2) := by
  unfold Create
  simp only [h1, h2]

/-- Claim C7: all persisted writes of the space `Create` call happen inside
a single transaction — if any step fails, `Create` returns an error and the
store is unchanged; on success the store contains the space record, its
primary path segment, the owner membership when the parent is the root, and
the public-access setting for the space path. -/
theorem C7_create_transactional (env : CreateEnv) (sessionPresent : Bool)
    (principalID : Int) (input : CreateInput) (s : StoreState) :
    (∀ e, (Create env sessionPresent principalID input s).2 = .error e →
      (Create env sessionPresent principalID input s).1 = s) ∧
    (∀ sp, (Create env sessionPresent principalID input s).2 = .ok sp →
      sp ∈ (Create env sessionPresent principalID input s).1.spaces ∧
      (∃ seg ∈ (Create env sessionPresent principalID input s).1.pathSegments,
        seg.spaceID = sp.id ∧ seg.isPrimary = true) ∧
      (sp.parentID = 0 →
        ∃ mem ∈ (Create env sessionPresent principalID input s).1.memberships,
          mem.spaceID = sp.id ∧ mem.principalID = principalID) ∧
      (∃ pa ∈ (Create env sessionPresent principalID input s).1.publicAccess,
        pa.1 = sp.path)) := by
  rcases hsan : sanitizeCreateInput env input with e0 | input2
  · rw [Create_sanitize_error env sessionPresent principalID input s e0 hsan]
    exact ⟨fun e _ => rfl, fun sp hsp => Except.noConfusion hsp⟩
  · rcases hauth : getSpaceCheckAuthSpaceCreation env sessionPresent input2.parentRef
      with e1 | ps
    · rw [Create_auth_error env sessionPresent principalID input s input2 e1 hsan hauth]
      exact ⟨fun e _ => rfl, fun sp hsp => Except.noConfusion hsp⟩
    · rw [Create_tx env sessionPresent principalID input s input2 ps hsan hauth]
      constructor
      · intro e he
        exact withTx_error s _ e he
      · intro sp hsp
        obtain ⟨hin2, hin1⟩ := withTx_ok s _ sp hsp
        have hrec := createSpaceInnerInTX_ok env principalID ps.id input2 s sp hin2
        rw [hin1] at hrec
        obtain ⟨ha, hb, hc, hd, hpid⟩ := hrec
        exact ⟨ha, hb, fun h0 => hc (hpid.symm.trans h0), hd⟩

/-- Claim C7, witness: with the public-access write failing, `Create`
leaves the empty store unchanged; with all steps succeeding, the store
gains the space record. -/
theorem C7_witness :
    (Create envFailPA true 7 inputRoot emptyStore).1 = emptyStore ∧
    (Create envOK true 7 inputRoot emptyStore).1.spaces ≠ [] := by
  constructor
  · exact (C7_create_transactional envFailPA true 7 inputRoot emptyStore).1
      .publicAccessSetFailed rfl
  · have h := (C7_create_transactional envOK true 7 inputRoot emptyStore).2
      spaceRootResult rfl
    exact List.ne_nil_of_mem h.1

/-- With a negative parent reference, sanitization always fails: with the
nested-spaces error when nested spaces are disabled, with the
public-creation error when that guard fires next, and with
`errParentIDNegative` when neither earlier guard fires. -/
theorem sanitize_negative (env : CreateEnv) (input : CreateInput) (v : Int)
    (hv : parseInt64 input.parentRef = some v) (hneg : v < 0) :
    (env.nestedSpacesEnabled = false →
      sanitizeCreateInput env input = .error .nestedSpacesNotSupported) ∧
    (env.nestedSpacesEnabled = true → input.isPublic = true →
      env.publicResourceCreationEnabled = false →
      sanitizeCreateInput env input = .error .publicSpaceCreationDisabled) ∧
    (env.nestedSpacesEnabled = true →
      (input.isPublic = false ∨ env.publicResourceCreationEnabled = true) →
      sanitizeCreateInput env input = .error .parentIDNegative) := by
  have hne : input.parentRef ≠ "" := parseInt64_ne_empty hv
  simp only [sanitizeCreateInput, applyUIDFallback_parentRef, applyUIDFallback_isPublic]
  cases hn : env.nestedSpacesEnabled with
  | false =>
    rw [if_pos ⟨hne, rfl⟩]
    exact ⟨fun _ => rfl, fun htrue => Bool.noConfusion htrue,
      fun htrue => Bool.noConfusion htrue⟩
  | true =>
    rw [if_neg (fun hc => Bool.noConfusion hc.2)]
    refine ⟨fun hfalse => Bool.noConfusion hfalse, ?_, ?_⟩
    · intro _ hpub hpe
      rw [if_pos ⟨hpub, hpe⟩]
    · intro _ hor
      have hp : ¬(input.isPublic = true ∧ env.publicResourceCreationEnabled = false) := by
        rcases hor with h1 | h2
        · intro hc
          rw [h1] at hc
          exact Bool.noConfusion hc.1
        · intro hc
          rw [h2] at hc
          exact Bool.noConfusion hc.2
      rw [if_neg hp, hv]
      have hcond : optIsNeg (some v) = true := by simp [optIsNeg, hneg]
      rw [hcond, if_pos rfl]

/-- Exhaustive split of the public-creation guard on its two boolean
inputs. -/
theorem publicGuardSplit (a b : Bool) (hp : ¬(a = true ∧ b = false)) :
    a = false ∨ b = true := by
  cases a with
  | false => exact Or.inl rfl
  | true =>
    cases b with
    | false => exact absurd ⟨rfl, rfl⟩ hp
    | true => exact Or.inr rfl

/-- Claim C10, counterexample: a `CreateInput` whose parent reference
parses to the negative integer -1 fails with the nested-spaces error when
nested spaces are disabled, and with the public-creation error when the
input is public and public creation is disabled — in neither case with
`errParentIDNegative`. -/
theorem C10_counterexample :
    parseInt64 inputNeg.parentRef = some (-1) ∧
    (Create envNoNested true 7 inputNeg emptyStore).2 =
      .error .nestedSpacesNotSupported ∧
    parseInt64 inputNegPub.parentRef = some (-1) ∧
    (Create envPubOff true 7 inputNegPub emptyStore).2 =
      .error .publicSpaceCreationDisabled ∧
    CreateErr.nestedSpacesNotSupported ≠ CreateErr.parentIDNegative ∧
    CreateErr.publicSpaceCreationDisabled ≠ CreateErr.parentIDNegative := by
  refine ⟨by decide, rfl, by decide, rfl, by decide, by decide⟩

/-- Claim C10, amended: for every `CreateInput` whose parent reference
parses as a negative integer, `Create` fails during input sanitization and
no space, path segment, membership or public-access record is created; the
error is `errParentIDNegative` exactly when the earlier sanitization guards
do not fire, i.e. when nested spaces are enabled and the public-creation
restriction does not apply; otherwise the nested-spaces error (nested
spaces disabled) or the public-creation error (public input with public
creation disabled) is returned instead. -/
theorem C10_parent_negative_amended (env : CreateEnv) (sessionPresent : Bool)
    (principalID : Int) (input : CreateInput) (s : StoreState) (v : Int)
    (hv : parseInt64 input.parentRef = some v) (hneg : v < 0) :
    (∃ e, Create env sessionPresent principalID input s = (s, .error e)) ∧
    (env.nestedSpacesEnabled = false →
      Create env sessionPresent principalID input s =
        (s, .error .nestedSpacesNotSupported)) ∧
    (env.nestedSpacesEnabled = true → input.isPublic = true →
      env.publicResourceCreationEnabled = false →
      Create env sessionPresent principalID input s =
        (s, .error .publicSpaceCreationDisabled)) ∧
    ((env.nestedSpacesEnabled = true ∧
        (input.isPublic = false ∨ env.publicResourceCreationEnabled = true)) ↔
      Create env sessionPresent principalID input s =
        (s, .error .parentIDNegative)) := by
  obtain ⟨hA, hB, hC⟩ := sanitize_negative env input v hv hneg
  have mkA : env.nestedSpacesEnabled = false →
      Create env sessionPresent principalID input s =
        (s, .error .nestedSpacesNotSupported) :=
    fun hn => Create_sanitize_error env sessionPresent principalID input s _ (hA hn)
  have mkB : env.nestedSpacesEnabled = true → input.isPublic = true →
      env.publicResourceCreationEnabled = false →
      Create env sessionPresent principalID input s =
        (s, .error .publicSpaceCreationDisabled) :=
    fun hn h1 h2 =>
      Create_sanitize_error env sessionPresent principalID input s _ (hB hn h1 h2)
  have mkC : env.nestedSpacesEnabled = true →
      (input.isPublic = false ∨ env.publicResourceCreationEnabled = true) →
      Create env sessionPresent principalID input s =
        (s, .error .parentIDNegative) :=
    fun hn hor =>
      Create_sanitize_error env sessionPresent principalID input s _ (hC hn hor)
  refine ⟨?_, mkA, mkB, ⟨fun hand => mkC hand.1 hand.2, ?_⟩⟩
  · cases hn : env.nestedSpacesEnabled with
    | false => exact ⟨.nestedSpacesNotSupported, mkA hn⟩
    | true =>
      by_cases hp : input.isPublic = true ∧ env.publicResourceCreationEnabled = false
      · exact ⟨.publicSpaceCreationDisabled, mkB hn hp.1 hp.2⟩
      · exact ⟨.parentIDNegative, mkC hn (publicGuardSplit _ _ hp)⟩
  · intro hcr
    cases hn : env.nestedSpacesEnabled with
    | false =>
      rw [mkA hn] at hcr
      have h2 := Except.error.inj (congrArg Prod.snd hcr)
      exact absurd h2 (by decide)
    | true =>
      refine ⟨rfl, ?_⟩
      by_cases hp : input.isPublic = true ∧ env.publicResourceCreationEnabled = false
      · rw [mkB hn hp.1 hp.2] at hcr
        have h2 := Except.error.inj (congrArg Prod.snd hcr)
        exact absurd h2 (by decide)
      · exact publicGuardSplit _ _ hp

/-- Claim C10, witness: the amended theorem applied to a concrete input
with parent reference "-5" under a controller with nested spaces enabled
and no public-creation restriction. -/
theorem C10_witness :
    Create envOK true 7 inputNeg5 emptyStore =
      (emptyStore, .error .parentIDNegative) :=
  (C10_parent_negative_amended envOK true 7 inputNeg5 emptyStore (-5)
    (by decide) (by decide)).2.2.2.mp ⟨rfl, Or.inl rfl⟩

end Gitness
